import Mathlib

/-
  Verification of the event-bus coordination core of the Agenda_Distribuida
  repository: a shallow embedding in Lean 4 of the conflict detector, the
  group-event fan-out, the gateway publish/wait services, and the users-service
  Redis connector, each translated from the Python source, together with
  theorems settling the specification's claims about them.

  Timestamps are modelled as integers (the Python code compares timezone-aware
  datetimes, which form a total order; only the order is relevant). External
  calls (HTTP requests, Redis operations) are abstracted as oracle functions
  giving each call's observable outcome, including the raising of exceptions.

  The file is laid out as definitions first, then the theorems about them.
-/

namespace Agenda

/-! ## Definitions -/

/-! ### Conflict detector (api_gateway/routers/events_router.py, create_event)

The router fetches the user's existing events and, for each well-formed event,
evaluates three boolean conditions against the candidate interval
[new_start, new_end); the event is appended to `conflicting_events` when their
disjunction holds. -/

/-- An existing event as compared by the router: the fields the overlap test
reads. `startTime`/`endTime` stand for the parsed `start_time`/`end_time`. -/
structure EventRec where
  id : String
  title : String
  startTime : Int
  endTime : Int
  deriving Repr, DecidableEq

/-- First condition: `new_start_utc < existing_end and new_end_utc > existing_start`. -/
def overlap_condition_1 (s1 e1 s2 e2 : Int) : Bool :=
  decide (s1 < e2) && decide (e1 > s2)

/-- Second condition: `new_start_utc >= existing_start and new_start_utc < existing_end`. -/
def overlap_condition_2 (s1 _e1 s2 e2 : Int) : Bool :=
  decide (s1 ≥ s2) && decide (s1 < e2)

/-- Third condition: `new_end_utc > existing_start and new_end_utc <= existing_end`. -/
def overlap_condition_3 (_s1 e1 s2 e2 : Int) : Bool :=
  decide (e1 > s2) && decide (e1 ≤ e2)

/-- Their disjunction: `has_overlap = overlap_condition_1 or overlap_condition_2
or overlap_condition_3`. -/
def has_overlap (s1 e1 s2 e2 : Int) : Bool :=
  overlap_condition_1 s1 e1 s2 e2 || overlap_condition_2 s1 e1 s2 e2 ||
    overlap_condition_3 s1 e1 s2 e2

/-- The `conflicting_events` list built by the loop in `create_event`: every
existing event whose interval makes `has_overlap` true against the candidate
[s1, e1). -/
def conflicting_events (s1 e1 : Int) (existing : List EventRec) : List EventRec :=
  existing.filter (fun ev => has_overlap s1 e1 ev.startTime ev.endTime)

/-- The single-formula overlap test stated by the spec for half-open
intervals: `[s1,e1)` and `[s2,e2)` overlap iff `s1 < e2 AND e1 > s2`. -/
def spec_overlap (s1 e1 s2 e2 : Int) : Bool :=
  decide (s1 < e2) && decide (e1 > s2)

/-! ### Group-event fan-out (api_gateway/routers/group_events_router.py)

`create_group_event` checks group membership (step 1), fetches the member
list and scans each member's events for conflicts (step 2), creates one
individual event per member (step 3), registers created events with the
groups service (step 4, fire-and-forget inside its own try/except, not
affecting the returned value), and builds the response (step 5). -/

/-- The observable outcome of `make_api_request("/api/v1/events", "POST", ...)`
for one member: an HTTP response carrying the events-router body (its status
code, the body's `status` field, `event_id` and optional `message`), a falsy
response object, or a raised exception. -/
inductive MemberCall
  | resp (status_code : Nat) (body_status : String) (event_id : String)
      (message : Option String)
  | noResponse
  | exc (msg : String)
  deriving Repr, DecidableEq

/-- Outcome recorded for one member by the step-3 loop body: an entry
appended to `created_events` or to `failed_members`. -/
inductive MemberOutcome
  | created (member_id event_id : String)
  | failed (member_id reason : String)
  deriving Repr, DecidableEq

/-- One iteration of the step-3 loop, as a function of the member's call
outcome: success responses append to `created_events`, everything else
(non-success body, non-200 or falsy response, exception) appends to
`failed_members` with the reason string the source uses. -/
def member_outcome (call : String → MemberCall) (member_id : String) :
    MemberOutcome :=
  match call member_id with
  | .resp code st eid msg =>
    if code = 200 then
      if st = "success" then .created member_id eid
      else .failed member_id (msg.getD ("Error desconocido"))
    else .failed member_id ("Error en la respuesta del servicio")
  | .noResponse => .failed member_id ("Error en la respuesta del servicio")
  | .exc emsg => .failed member_id emsg

/-- The step-3 loop accumulator update: append the member's outcome to the
matching list, leaving the other untouched. -/
def member_attempt (call : String → MemberCall)
    (acc : List (String × String) × List (String × String))
    (member_id : String) :
    List (String × String) × List (String × String) :=
  match member_outcome call member_id with
  | .created m eid => (acc.1 ++ [(m, eid)], acc.2)
  | .failed m reason => (acc.1, acc.2 ++ [(m, reason)])

/-- The whole step-3 loop: fold over the member list, building
`(created_events, failed_members)`. -/
def fanout (members : List String) (call : String → MemberCall) :
    List (String × String) × List (String × String) :=
  members.foldl (member_attempt call) ([], [])

/-- Step-5 aggregate status: `if failed_members: "partial_success" else
"success"` — the Python truthiness test on the failed list. -/
def group_event_status (failed : List (String × String)) : String :=
  if failed.isEmpty then "success" else "partial_success"

/-- Projection of a created outcome, for characterizing the created list. -/
def createdOf : MemberOutcome → Option (String × String)
  | .created m eid => some (m, eid)
  | .failed _ _ => none

/-- Projection of a failed outcome, for characterizing the failed list. -/
def failedOf : MemberOutcome → Option (String × String)
  | .created _ _ => none
  | .failed m reason => some (m, reason)

/-- Whether the member's create-event call took the success path
(HTTP 200 response whose body status is `"success"`). -/
def attempt_succeeded (call : String → MemberCall) (member_id : String) :
    Bool :=
  match call member_id with
  | .resp code st _ _ => decide (code = 200) && decide (st = "success")
  | .noResponse => false
  | .exc _ => false

/-- The result of the step-1 membership check
(`make_groups_service_request(f"/groups/{group_id}")`). -/
inductive GroupCheck
  | resp (status_code : Nat)
  | raisesG (msg : String)
  deriving Repr, DecidableEq

/-- The result of the step-2 member-list lookup
(`make_groups_service_request(f"/groups/{group_id}/members")`). -/
inductive LookupResult
  | resp (status_code : Nat) (members : List String)
  | raisesL (msg : String)
  deriving Repr, DecidableEq

/-- The result of fetching one member's events inside the step-2 conflict
scan (`make_api_request(f"/api/v1/events?user_id={member_id}")`). -/
inductive EventsCallResult
  | resp (status_code : Nat) (events : List EventRec)
  | noResponse
  | raisesE (msg : String)
  deriving Repr, DecidableEq

/-- What `create_group_event` does as observed by its caller: a structured
error body, the conflict early-return, an uncaught `NameError` (the step-3
loop reads the local `group_members` when it was never assigned), or the
step-5 fan-out response. -/
inductive RouterResult
  | errorResponse (message : String)
  | conflictError (conflicting : List (String × String))
  | nameError
  | fanoutResponse (status : String)
      (created failed : List (String × String))
  deriving Repr, DecidableEq

/-- The group router's inline overlap test (line 83):
`new_start_utc < existing_end and new_end_utc > existing_start`. -/
def group_overlap (s1 e1 s2 e2 : Int) : Bool :=
  decide (s1 < e2) && decide (e1 > s2)

/-- Conflict entries one member contributes in the step-2 scan: one entry
per overlapping event. -/
def member_conflicts (s1 e1 : Int) (member_id : String)
    (events : List EventRec) : List (String × String) :=
  (events.filter (fun ev => group_overlap s1 e1 ev.startTime ev.endTime)).map
    (fun ev => (member_id, ev.id))

/-- The step-2 per-member conflict scan: members whose events call returns a
200 response contribute their overlapping events; a falsy or non-200
response is skipped; an exception aborts the whole `try` block (caught by
the `except` that ends step 2). -/
def conflict_scan (members : List String)
    (eventsCall : String → EventsCallResult) (s1 e1 : Int) :
    Except String (List (String × String)) :=
  match members with
  | [] => .ok []
  | m :: rest =>
    match eventsCall m with
    | .raisesE msg => .error msg
    | .resp code evs =>
      if code = 200 then
        match conflict_scan rest eventsCall s1 e1 with
        | .error msg => .error msg
        | .ok confl => .ok (member_conflicts s1 e1 m evs ++ confl)
      else conflict_scan rest eventsCall s1 e1
    | .noResponse => conflict_scan rest eventsCall s1 e1

/-- Steps 3–5 once the member list is in scope: run the fan-out loop and
build the aggregate response. Step 4 (registering created events with the
groups service) runs inside its own try/except and does not change the
returned value. -/
def fanout_and_respond (members : List String)
    (call : String → MemberCall) : RouterResult :=
  let r := fanout members call
  .fanoutResponse (group_event_status r.2) r.1 r.2

/-- The endpoint `create_group_event`, with every external call abstracted
as an oracle. Step 1 returns an error body unless the membership check is a
200. Step 2 assigns the local `group_members` only inside the
`if status_code == 200` branch; when the lookup raises (caught and logged)
or is non-200, the step-3 loop reads an unassigned local and raises
`NameError`. -/
def create_group_event (check : GroupCheck) (lookup : LookupResult)
    (eventsCall : String → EventsCallResult) (call : String → MemberCall)
    (s1 e1 : Int) : RouterResult :=
  match check with
  | .raisesG msg =>
    .errorResponse ("Error verificando permisos del grupo: " ++ msg)
  | .resp c =>
    if c ≠ 200 then
      .errorResponse ("Usuario no autorizado para crear eventos en este grupo")
    else
      match lookup with
      | .raisesL _ => .nameError
      | .resp code ms =>
        if code = 200 then
          match conflict_scan ms eventsCall s1 e1 with
          | .error _ => fanout_and_respond ms call
          | .ok confl =>
            if confl.isEmpty then fanout_and_respond ms call
            else .conflictError confl
        else .nameError

/-! ### Gateway event service (api_gateway/services/event_service.py)

`RedisService` here is the gateway's asyncio-based connector; its
`is_connected` and `publish_event` are `async def`s. `EventService`'s
synchronous `publish_event` calls both WITHOUT `await`: each call yields a
coroutine object, and a coroutine object is truthy. -/

/-- A Python value as tested for truthiness at the call sites we model:
either a genuine boolean, or a coroutine object — what calling an
`async def` without `await` yields. -/
inductive PyVal
  | pybool (b : Bool)
  | coroutine
  deriving Repr, DecidableEq

/-- Python truthiness: a coroutine object is always truthy. -/
def truthy : PyVal → Bool
  | .pybool b => b
  | .coroutine => true

/-- Calling an `async def` from synchronous code without `await` does not
run its body: it yields a coroutine object, whatever the awaited result
would have been. -/
def callAsyncNoAwait (_resultIfAwaited : Bool) : PyVal := .coroutine

/-- The gateway `RedisService` connection state: whether `self.client` is
set, whether its ping succeeds, and whether a publish would reach Redis. -/
structure GwRedis where
  clientSet : Bool
  pingOk : Bool
  pubOk : Bool
  deriving Repr, DecidableEq

/-- The awaited result of the gateway's `RedisService.is_connected`:
`False` without a client, else the ping result. -/
def gw_is_connected (st : GwRedis) : Bool :=
  if !st.clientSet then false else st.pingOk

/-- The awaited result of the gateway's async `RedisService.publish_event`:
`False` when not connected, else whether the publish succeeded. (Its own
connectivity guard also calls `is_connected` without awaiting it.) -/
def gw_redis_publish (st : GwRedis) : Bool :=
  if !(truthy (callAsyncNoAwait (gw_is_connected st))) then false
  else st.pubOk

/-- The dict `EventService.publish_event` returns, reduced to the fields the
claims observe. -/
structure PublishOutcome where
  published : Bool
  event_id : Option String
  error : Option String
  deriving Repr, DecidableEq

/-- The synchronous `EventService.publish_event`: guard on
`not self.redis.is_connected()` — an unawaited coroutine — then build the
event (its id is the fresh uuid) and test `self.redis.publish_event(...)`,
again an unawaited coroutine. -/
def gw_publish_event (st : GwRedis) (uuid : String) : PublishOutcome :=
  if !(truthy (callAsyncNoAwait (gw_is_connected st))) then
    ⟨false, none, some ("Redis not connected")⟩
  else
    let published := callAsyncNoAwait (gw_redis_publish st)
    if truthy published then ⟨true, some uuid, none⟩
    else ⟨false, none, some ("Failed to publish event")⟩

/-! ### Correlation waiting

`EventService.wait_for_response` registers a callback on the reply channel:
`if message.get('correlation_id') == correlation_id: response = message;
event.set()`. The listener thread keeps running after the waiter wakes, so
the number `k` of delivered messages it has processed when the waiter's
`return response` executes is at least up to the first match, but can be
larger. `list_user_groups` (groups_router.py) instead loops on
`pubsub.get_message` itself and breaks on the first decoded message whose
`type` is `"list_user_groups_response"`, never reading `correlation_id`. -/

/-- A decoded message delivered on the reply channel: its optional
`correlation_id` field and an opaque body. -/
structure RMsg where
  correlation_id : Option String
  body : String
  deriving Repr, DecidableEq

/-- The callback of `wait_for_response`, instrumented: on a matching
`correlation_id` it executes `response = message` (second component counts
these assignments) and sets the event; otherwise it leaves the slot
alone. -/
def wait_callback (c : String) (s : Option RMsg × Nat) (m : RMsg) :
    Option RMsg × Nat :=
  if m.correlation_id = some c then (some m, s.2 + 1) else s

/-- Slot content and assignment count after the listener has run the
callback over a sequence of delivered messages. -/
def callback_run (c : String) (msgs : List RMsg) : Option RMsg × Nat :=
  msgs.foldl (wait_callback c) (none, 0)

/-- What `wait_for_response` returns when its `return response` executes
after the listener has processed the first `k` delivered messages. -/
def wait_for_response_run (c : String) (delivered : List RMsg) (k : Nat) :
    Option RMsg :=
  (callback_run c (delivered.take k)).1

/-- Spec-side definition: the first delivered message whose
`correlation_id` matches — what the claim says the wait returns. -/
def firstMatch (c : String) (msgs : List RMsg) : Option RMsg :=
  msgs.find? (fun m => m.correlation_id = some c)

/-- Spec-side definition: the most recent delivered message whose
`correlation_id` matches — what the callback's overwriting actually
leaves in the slot. -/
def lastMatch (c : String) (msgs : List RMsg) : Option RMsg :=
  msgs.reverse.find? (fun m => m.correlation_id = some c)

/-- A delivery on the groups reply channel as seen by the wait loop of
`list_user_groups`: either `json.loads` raises (the `except` logs and the
loop continues), or a decoded object with optional `type` and
`correlation_id` fields and its payload. -/
inductive GDelivery
  | malformed
  | gmsg (gtype : Option String) (correlation_id : Option String)
      (payload : String)
  deriving Repr, DecidableEq

/-- The wait loop of `list_user_groups`: skip malformed deliveries, break
with the payload of the first message whose `type` field equals
`"list_user_groups_response"` — the loop never reads `correlation_id`. -/
def list_user_groups_wait : List GDelivery → Option String
  | [] => none
  | .malformed :: rest => list_user_groups_wait rest
  | .gmsg t _ p :: rest =>
    if t = some ("list_user_groups_response") then some p
    else list_user_groups_wait rest

/-- Spec-side reading of the groups wait loop: the payload of the first
well-formed delivery whose type tags it as the list-groups response. -/
def first_groups_response (msgs : List GDelivery) : Option String :=
  (msgs.filterMap (fun d =>
    match d with
    | .malformed => none
    | .gmsg t _ p =>
      if t = some ("list_user_groups_response") then some p
      else none)).head?

/-! ### Users-service Redis connector (users_service/services/event_service.py) -/

/-- Constant `MAX_RECONNECT_ATTEMPTS = 5`. -/
def MAX_RECONNECT_ATTEMPTS : Nat := 5

/-- Constant `RECONNECT_DELAY = 5` (seconds). -/
def RECONNECT_DELAY : Nat := 5

/-- How one body of the `for attempt in range(...)` loop of
`RedisService._connect` ends: the ping succeeds, a
`ConnectionError`/`TimeoutError` is raised (backoff and retry), or some
other exception is raised (the generic `except` breaks the loop). -/
inductive AttemptOutcome
  | success
  | connError
  | otherError
  deriving Repr, DecidableEq

/-- The sleep `wait_time = min(RECONNECT_DELAY * (2 ** attempt), 30)`. -/
def backoff_delay (attempt : Nat) : Nat :=
  min (RECONNECT_DELAY * 2 ^ attempt) 30

/-- Observable trace of `_connect`: its return value, how many attempts ran,
and the sleeps performed (in order, in seconds). -/
structure ConnectTrace where
  ok : Bool
  attempts_made : Nat
  delays : List Nat
  deriving Repr, DecidableEq

/-- The `for attempt in range(MAX_RECONNECT_ATTEMPTS)` loop of `_connect`,
over the list of attempt indices; `oracle` gives each attempt's outcome.
On `connError` the loop sleeps `backoff_delay attempt` and continues; on
any other exception it breaks; falling off the loop returns `False`. -/
def connect_loop (oracle : Nat → AttemptOutcome) :
    List Nat → Nat → List Nat → ConnectTrace
  | [], made, delays => ⟨false, made, delays⟩
  | attempt :: rest, made, delays =>
    match oracle attempt with
    | .success => ⟨true, made + 1, delays⟩
    | .connError =>
      connect_loop oracle rest (made + 1) (delays ++ [backoff_delay attempt])
    | .otherError => ⟨false, made + 1, delays⟩

/-- The function `RedisService._connect`, as the trace of its retry loop. -/
def redis_connect (oracle : Nat → AttemptOutcome) : ConnectTrace :=
  connect_loop oracle (List.range MAX_RECONNECT_ATTEMPTS) 0 []

/-! ### Dispatcher (users_service `RedisService._process_message`) -/

/-- What one handler invocation does with the event: return normally or
raise. -/
inductive HandlerResult
  | ok
  | raisesH (msg : String)
  deriving Repr, DecidableEq

/-- A decoded event as handed to handlers: its optional `type` field and
id. -/
structure UEvent where
  etype : Option String
  event_id : String
  deriving Repr, DecidableEq

/-- A registered handler, by its observable effect on an event. -/
abbrev UHandler := UEvent → HandlerResult

/-- The handler loop of `_process_message`: each invocation is wrapped in
its own `try/except Exception`, which logs a raising handler and falls
through, so the loop records every handler's result and always continues
to the next handler. -/
def run_handler_loop : List UHandler → UEvent → List HandlerResult
  | [], _ => []
  | h :: rest, e => h e :: run_handler_loop rest e

/-- The `data` field of a pubsub message: undecodable bytes (the
`JSONDecodeError` handler logs and drops it) or a decoded event. -/
inductive MsgData
  | malformed
  | decoded (e : UEvent)
  deriving Repr, DecidableEq

/-- A message pulled off the subscription, with its pubsub `type` field and
optional `data` (either may be absent). -/
structure RedisMessage where
  mtype : Option String
  data : Option MsgData
  deriving Repr, DecidableEq

/-- The dispatcher body `RedisService._process_message`: drop falsy
messages, messages without a `type`, non-`'message'` messages, messages
without `data`, undecodable payloads and events without a (truthy) event
type; otherwise run every registered handler for the event type through
the isolated handler loop. The returned list is the recorded per-handler
outcome trace; its type shows no handler exception propagates out of
message processing. -/
def process_message (handlers : String → List UHandler)
    (msg : Option RedisMessage) : List HandlerResult :=
  match msg with
  | none => []
  | some m =>
    match m.mtype with
    | none => []
    | some t =>
      if t ≠ "message" then []
      else
        match m.data with
        | none => []
        | some .malformed => []
        | some (.decoded e) =>
          match e.etype with
          | none => []
          | some et =>
            if et = "" then [] else run_handler_loop (handlers et) e

/-! ### Envelope wire shape

The gateway builds envelopes through the pydantic `EventSchema`
(api_gateway/schemas.py); the users service builds the published dict by
hand in `RedisService.publish_event` (lines 150-155). -/

/-- A JSON value as far as the envelope shape is concerned. -/
inductive JVal
  | jstr (v : String)
  | jobj (kv : List (String × String))
  deriving Repr, DecidableEq

/-- The pydantic `EventSchema` (api_gateway/schemas.py): the five declared
fields, `version` defaulting to `"1.0"`. -/
structure EventSchema where
  event_id : String
  type : String
  timestamp : String
  version : String
  payload : List (String × String)
  deriving Repr, DecidableEq

/-- The builder `EventService.create_event`: fresh uuid, the given type,
the current timestamp, version `"1.0"`, and the payload. -/
def gw_create_event (uuid ts etype : String)
    (payload : List (String × String)) : EventSchema :=
  ⟨uuid, etype, ts, "1.0", payload⟩

/-- The JSON object `model_dump_json` serializes for an `EventSchema`: one
key per declared field. -/
def EventSchema.model_dump (e : EventSchema) : List (String × JVal) :=
  [("event_id", .jstr e.event_id), ("type", .jstr e.type),
   ("timestamp", .jstr e.timestamp), ("version", .jstr e.version),
   ("payload", .jobj e.payload)]

/-- The dict the users service's `RedisService.publish_event` builds and
serializes: `event_id`, `type`, `timestamp` and `payload` — and nothing
else. -/
def users_build_envelope (eid ts etype : String)
    (payload : List (String × String)) : List (String × JVal) :=
  [("event_id", .jstr eid), ("type", .jstr etype),
   ("timestamp", .jstr ts), ("payload", .jobj payload)]

/-! ## Theorems -/

/-! ### Conflict detector -/

/-- Over intervals with `start < end`, the router's three-condition
disjunction collapses to the spec's single formula. -/
theorem has_overlap_eq_spec {s1 e1 s2 e2 : Int} (h1 : s1 < e1) (_h2 : s2 < e2) :
    has_overlap s1 e1 s2 e2 = spec_overlap s1 e1 s2 e2 := by
  rw [Bool.eq_iff_iff]
  simp only [has_overlap, overlap_condition_1, overlap_condition_2,
    overlap_condition_3, spec_overlap, Bool.or_eq_true, Bool.and_eq_true,
    decide_eq_true_eq]
  omega

/-- C1: over a candidate with `s1 < e1` and existing intervals each with
`start < end`, the conflict check returns exactly the intervals satisfying
`s1 < end ∧ e1 > start`; boundary-touching intervals are never returned; and
an empty result means no existing interval overlaps the candidate. -/
theorem conflict_detector_correct (s1 e1 : Int) (existing : List EventRec)
    (hc : s1 < e1) (hw : ∀ ev ∈ existing, ev.startTime < ev.endTime) :
    conflicting_events s1 e1 existing =
      existing.filter (fun ev => spec_overlap s1 e1 ev.startTime ev.endTime) ∧
    (∀ ev ∈ conflicting_events s1 e1 existing,
      e1 ≠ ev.startTime ∧ ev.endTime ≠ s1) ∧
    (conflicting_events s1 e1 existing = [] ↔
      ∀ ev ∈ existing, ¬(s1 < ev.endTime ∧ e1 > ev.startTime)) := by
  have hfil : conflicting_events s1 e1 existing =
      existing.filter (fun ev => spec_overlap s1 e1 ev.startTime ev.endTime) := by
    unfold conflicting_events
    apply List.filter_congr
    intro ev hev
    exact has_overlap_eq_spec hc (hw ev hev)
  refine ⟨hfil, ?_, ?_⟩
  · intro ev hev
    rw [hfil] at hev
    have := List.of_mem_filter hev
    have hmem := List.mem_of_mem_filter hev
    simp only [spec_overlap, Bool.and_eq_true, decide_eq_true_eq] at this
    have hwev := hw ev hmem
    constructor <;> intro heq <;> omega
  · rw [hfil]
    constructor
    · intro hnil ev hev hov
      have : ev ∈ existing.filter
          (fun ev => spec_overlap s1 e1 ev.startTime ev.endTime) := by
        apply List.mem_filter.mpr
        refine ⟨hev, ?_⟩
        simp only [spec_overlap, Bool.and_eq_true, decide_eq_true_eq]
        exact ⟨hov.1, hov.2⟩
      rw [hnil] at this
      exact absurd this (List.not_mem_nil ev)
    · intro h
      apply List.filter_eq_nil_iff.mpr
      intro ev hev
      simp only [spec_overlap, Bool.and_eq_true, decide_eq_true_eq]
      intro hcontra
      exact h ev hev hcontra

/-- Witness for C1: the spec's own boundary examples, in minutes of the day:
candidate [600,660) conflicts with [630,690) but not with the back-to-back
[660,720). -/
theorem conflict_detector_correct_witness :
    conflicting_events 600 660
      [⟨"a", "A", 630, 690⟩, ⟨"b", "B", 660, 720⟩] = [⟨"a", "A", 630, 690⟩] ∧
    (conflicting_events 600 660
      [⟨"a", "A", 630, 690⟩, ⟨"b", "B", 660, 720⟩] =
      [⟨"a", "A", 630, 690⟩, ⟨"b", "B", 660, 720⟩].filter
        (fun ev => spec_overlap 600 660 ev.startTime ev.endTime)) := by
  refine ⟨by decide, ?_⟩
  exact (conflict_detector_correct 600 660
    [⟨"a", "A", 630, 690⟩, ⟨"b", "B", 660, 720⟩] (by decide) (by decide)).1

/-! ### Fan-out -/

theorem fanout_go (call : String → MemberCall) (members : List String)
    (c f : List (String × String)) :
    members.foldl (member_attempt call) (c, f) =
      (c ++ (members.map (member_outcome call)).filterMap createdOf,
       f ++ (members.map (member_outcome call)).filterMap failedOf) := by
  induction members generalizing c f with
  | nil => simp
  | cons m rest ih =>
    simp only [List.foldl_cons, List.map_cons]
    rcases hm : member_outcome call m with _ | _ <;>
      simp [member_attempt, hm, ih, createdOf, failedOf]

theorem fanout_characterization (members : List String)
    (call : String → MemberCall) :
    fanout members call =
      ((members.map (member_outcome call)).filterMap createdOf,
       (members.map (member_outcome call)).filterMap failedOf) := by
  have h := fanout_go call members [] []
  simpa [fanout] using h

theorem outcome_split_length (l : List MemberOutcome) :
    (l.filterMap createdOf).length + (l.filterMap failedOf).length =
      l.length := by
  induction l with
  | nil => simp
  | cons o rest ih =>
    rcases o with _ | _ <;> simp [createdOf, failedOf, ih] <;> omega

/-- C8: the fan-out loop attempts every member, records exactly one outcome
per member in the input order (the created and failed lists are exactly the
created/failed projections of the per-member outcomes, in order), and the
two lists together account for every member. -/
theorem fanout_attempts_every_member (members : List String)
    (call : String → MemberCall) :
    fanout members call =
      ((members.map (member_outcome call)).filterMap createdOf,
       (members.map (member_outcome call)).filterMap failedOf) ∧
    (fanout members call).1.length + (fanout members call).2.length =
      members.length := by
  refine ⟨fanout_characterization members call, ?_⟩
  rw [fanout_characterization members call]
  simpa using outcome_split_length (members.map (member_outcome call))

/-- C10: when the member-list lookup is not a 200 response — including when
it raises, which the router catches and logs — `create_group_event` reaches
the fan-out loop with `group_members` never assigned and raises an uncaught
`NameError` instead of returning a structured error result. -/
theorem create_group_event_name_error (lookup : LookupResult)
    (eventsCall : String → EventsCallResult) (call : String → MemberCall)
    (s1 e1 : Int) (h : ∀ ms, lookup ≠ .resp 200 ms) :
    create_group_event (.resp 200) lookup eventsCall call s1 e1 =
      .nameError := by
  rcases lookup with ⟨code, ms⟩ | msg
  · have hcode : code ≠ 200 := by
      intro hc
      exact h ms (by rw [hc])
    simp [create_group_event, hcode]
  · simp [create_group_event]

/-- Witness for C10: a 500 member-list lookup drives the router into the
`NameError` outcome. -/
theorem create_group_event_name_error_witness :
    create_group_event (.resp 200) (.resp 500 []) (fun _ => .noResponse)
      (fun _ => .noResponse) 0 1 = .nameError := by
  apply create_group_event_name_error
  intro ms hcontra
  injection hcontra with h1 h2
  exact absurd h1 (by decide)

/-- C2 counterexample: a single-member group whose creation call raises —
no member succeeded, yet the aggregate status the router computes is
`"partial_success"`, not the `"failure"` the claim requires. -/
theorem group_status_no_failure_counterexample :
    fanout ["alice"] (fun _ => .exc ("boom")) = ([], [("alice", "boom")]) ∧
    group_event_status [("alice", "boom")] = "partial_success" ∧
    "partial_success" ≠ "failure" := by
  refine ⟨rfl, rfl, by decide⟩

theorem failedOf_member_outcome_none_iff (call : String → MemberCall)
    (m : String) :
    failedOf (member_outcome call m) = none ↔
      attempt_succeeded call m = true := by
  rcases hc : call m with ⟨code, st, eid, msg⟩ | _ | emsg <;>
    simp only [member_outcome, attempt_succeeded, hc]
  · by_cases h200 : code = 200 <;> by_cases hst : st = "success" <;>
      simp [h200, hst, failedOf]
  · simp [failedOf]
  · simp [failedOf]

/-- C2 (amended): the aggregate status the fan-out computes is `"success"`
exactly when every member's sub-operation succeeded, and `"partial_success"`
whenever at least one member failed — even when no member succeeded; the
code never produces a `"failure"` status. -/
theorem group_event_status_amended (members : List String)
    (call : String → MemberCall) :
    (group_event_status (fanout members call).2 = "success" ↔
      ∀ m ∈ members, attempt_succeeded call m = true) ∧
    ((∃ m ∈ members, attempt_succeeded call m = false) →
      group_event_status (fanout members call).2 = "partial_success") ∧
    group_event_status (fanout members call).2 ≠ "failure" := by
  have hchar := fanout_characterization members call
  have hempty : (fanout members call).2 = [] ↔
      ∀ m ∈ members, attempt_succeeded call m = true := by
    rw [hchar]
    simp only [List.filterMap_eq_nil_iff, List.mem_map, forall_exists_index,
      and_imp, forall_apply_eq_imp_iff₂]
    constructor
    · intro h m hm
      exact (failedOf_member_outcome_none_iff call m).mp (h m hm)
    · intro h m hm
      exact (failedOf_member_outcome_none_iff call m).mpr (h m hm)
  refine ⟨?_, ?_, ?_⟩
  · rw [← hempty]
    unfold group_event_status
    by_cases hnil : (fanout members call).2 = [] <;> simp [hnil]
  · rintro ⟨m, hm, hfail⟩
    have : ¬ (fanout members call).2 = [] := by
      rw [hempty]
      intro hall
      rw [hall m hm] at hfail
      exact absurd hfail (by decide)
    unfold group_event_status
    simp [List.isEmpty_iff, this]
  · unfold group_event_status
    by_cases hnil : ((fanout members call).2).isEmpty <;> simp [hnil]

/-- Witness for C2 (amended), on a mixed two-member group: one success and
one failure yield `"partial_success"`. -/
theorem group_event_status_amended_witness :
    group_event_status (fanout ["a", "b"]
      (fun m => if m = "a" then .resp 200 ("success") "e1" none
                else .exc ("boom"))).2 = "partial_success" := by
  apply (group_event_status_amended ["a", "b"] _).2.1
  refine ⟨"b", by decide, by decide⟩

/-! ### Gateway publish -/

/-- C5 evaluated on the code: with the broker unreachable (no client, ping
failing, publish failing — `is_connected`'s awaited value is `false`), the
gateway's Publish still reports `published = True` with an event id,
because both async checks are called without `await` and the coroutine
objects are truthy. The claim (and the guard's own intent) says this call
returns `published = False` with no event id. -/
theorem gw_publish_disconnected_reports_success (st : GwRedis)
    (uuid : String) (_h : gw_is_connected st = false) :
    (gw_publish_event st uuid).published = true ∧
    (gw_publish_event st uuid).event_id = some uuid := by
  simp [gw_publish_event, truthy, callAsyncNoAwait]

/-- Witness for C5: the concrete fully-disconnected state. -/
theorem gw_publish_disconnected_reports_success_witness :
    gw_is_connected ⟨false, false, false⟩ = false ∧
    (gw_publish_event ⟨false, false, false⟩ "id1").published = true :=
  ⟨rfl, (gw_publish_disconnected_reports_success ⟨false, false, false⟩
    "id1" rfl).1⟩

/-! ### Correlation waiting -/

theorem lastMatch_cons (c : String) (m : RMsg) (rest : List RMsg) :
    lastMatch c (m :: rest) =
      (lastMatch c rest).or
        (if m.correlation_id = some c then some m else none) := by
  simp only [lastMatch, List.reverse_cons, List.find?_append,
    List.find?_singleton]
  by_cases hm : m.correlation_id = some c <;> simp [hm]

theorem callback_run_go (c : String) (msgs : List RMsg)
    (s : Option RMsg × Nat) :
    (msgs.foldl (wait_callback c) s).1 = (lastMatch c msgs).or s.1 := by
  induction msgs generalizing s with
  | nil => simp [lastMatch]
  | cons m rest ih =>
    rw [List.foldl_cons, ih, lastMatch_cons]
    by_cases hm : m.correlation_id = some c <;>
      simp [wait_callback, hm, Option.or_assoc]

theorem callback_slot_eq_lastMatch (c : String) (msgs : List RMsg) :
    (callback_run c msgs).1 = lastMatch c msgs := by
  rw [callback_run, callback_run_go]
  simp

theorem callback_count_go (c : String) (msgs : List RMsg)
    (s : Option RMsg × Nat) :
    (msgs.foldl (wait_callback c) s).2 =
      s.2 + (msgs.filter (fun m => m.correlation_id = some c)).length := by
  induction msgs generalizing s with
  | nil => simp
  | cons m rest ih =>
    by_cases hm : m.correlation_id = some c <;>
      simp [wait_callback, hm, ih] <;> omega

theorem groups_wait_eq_first_response (msgs : List GDelivery) :
    list_user_groups_wait msgs = first_groups_response msgs := by
  induction msgs with
  | nil => rfl
  | cons d rest ih =>
    rcases d with _ | ⟨t, cid, p⟩
    · simpa [list_user_groups_wait, first_groups_response] using ih
    · by_cases ht : t = some ("list_user_groups_response") <;>
        simp [list_user_groups_wait, first_groups_response, ht] <;>
        simpa [first_groups_response] using ih

/-- C3 counterexample: a request awaiting correlation id `"abc"` in
`list_user_groups` is resolved by the very first delivered response-typed
message although its correlation id is `"other"` — a delivered message
whose correlation id differs from the request's resolves the wait. -/
theorem groups_wait_ignores_correlation_counterexample :
    list_user_groups_wait
      [.gmsg (some ("list_user_groups_response")) (some ("other")) ("p1")]
      = some ("p1") ∧
    (some ("other") : Option String) ≠ some ("abc") := by
  exact ⟨rfl, by decide⟩

/-- C3 (amended): in `EventService.wait_for_response` a delivered message
with a different correlation id never resolves the wait, and the returned
value is the most recent matching message among those processed before the
return (the first match when the waiter returns before further matches are
processed); in `list_user_groups`, by contrast, the wait is resolved by the
first well-formed delivered message whose type is the response type,
regardless of its correlation id. -/
theorem wait_matching_semantics (c : String) (delivered : List RMsg)
    (k : Nat) (msgs : List GDelivery) :
    wait_for_response_run c delivered k = lastMatch c (delivered.take k) ∧
    ((∀ m ∈ delivered, m.correlation_id ≠ some c) →
      wait_for_response_run c delivered k = none) ∧
    list_user_groups_wait msgs = first_groups_response msgs := by
  refine ⟨callback_slot_eq_lastMatch c (delivered.take k), ?_,
    groups_wait_eq_first_response msgs⟩
  intro hnone
  rw [wait_for_response_run, callback_slot_eq_lastMatch, lastMatch,
    List.find?_eq_none]
  intro m hm
  have : m ∈ delivered := List.take_subset k delivered
    (List.mem_reverse.mp hm)
  simpa using hnone m this

/-- Witness for C3 (amended): a single non-matching delivered message
leaves the wait unresolved, and a lone matching message is returned. -/
theorem wait_matching_semantics_witness :
    wait_for_response_run "abc" [⟨some ("other"), ("b1")⟩] 1 = none ∧
    wait_for_response_run "abc" [⟨some ("abc"), ("b2")⟩] 1 =
      lastMatch "abc" ([⟨some ("abc"), ("b2")⟩].take 1) := by
  refine ⟨(wait_matching_semantics "abc" [⟨some ("other"), ("b1")⟩] 1
    []).2.1 ?_, (wait_matching_semantics "abc" [⟨some ("abc"), ("b2")⟩] 1
    []).1⟩
  intro m hm
  simp only [List.mem_singleton] at hm
  rw [hm]
  decide

/-- C4 counterexample: two matching messages delivered while the request
awaits correlation id `"c"` make the callback execute the slot assignment
twice, and the slot ends at the second message — the second matching
message is not discarded and the slot is not single-assignment. -/
theorem wait_slot_assigned_twice_counterexample :
    callback_run "c" [⟨some ("c"), ("r1")⟩, ⟨some ("c"), ("r2")⟩] =
      (some ⟨some ("c"), ("r2")⟩, 2) ∧
    (⟨some ("c"), ("r2")⟩ : RMsg) ≠ ⟨some ("c"), ("r1")⟩ := by
  exact ⟨rfl, by decide⟩

/-- C4 (amended): the callback assigns the slot once per matching delivered
message — a later matching message overwrites the slot rather than being
discarded — and the value the wait has already returned is fixed at return
time: messages delivered after the processed prefix do not change it. -/
theorem wait_slot_overwrite_semantics (c : String) (msgs : List RMsg)
    (delivered extra : List RMsg) (k : Nat) :
    (callback_run c msgs).2 =
      (msgs.filter (fun m => m.correlation_id = some c)).length ∧
    (callback_run c msgs).1 = lastMatch c msgs ∧
    (k ≤ delivered.length →
      wait_for_response_run c (delivered ++ extra) k =
        wait_for_response_run c delivered k) := by
  refine ⟨?_, callback_slot_eq_lastMatch c msgs, ?_⟩
  · rw [callback_run, callback_count_go]
    simp
  · intro hk
    rw [wait_for_response_run, wait_for_response_run,
      List.take_append_of_le_length hk]

/-- Witness for C4 (amended): with one processed matching message, a later
delivery does not change the returned value. -/
theorem wait_slot_overwrite_semantics_witness :
    wait_for_response_run "c" ([⟨some ("c"), ("r1")⟩] ++
      [⟨some ("c"), ("r2")⟩]) 1 =
      wait_for_response_run "c" [⟨some ("c"), ("r1")⟩] 1 :=
  (wait_slot_overwrite_semantics "c" [] [⟨some ("c"), ("r1")⟩]
    [⟨some ("c"), ("r2")⟩] 1).2.2 (by decide)

/-! ### Reconnect backoff -/

theorem connect_loop_attempts_le (oracle : Nat → AttemptOutcome)
    (l : List Nat) (made : Nat) (delays : List Nat) :
    (connect_loop oracle l made delays).attempts_made ≤ made + l.length := by
  induction l generalizing made delays with
  | nil => simp [connect_loop]
  | cons a rest ih =>
    rcases ha : oracle a with _ | _ | _
    · simp only [connect_loop, ha, List.length_cons]
      omega
    · simp only [connect_loop, ha, List.length_cons]
      have := ih (made + 1) (delays ++ [backoff_delay a])
      omega
    · simp only [connect_loop, ha, List.length_cons]
      omega

/-- C6: when every connect attempt fails with a connection error, `_connect`
sleeps 5, 10, 20, 30, 30 seconds (the capped exponential backoff
`min(5 * 2^n, 30)` after the n-th failed attempt), makes exactly the 5
allowed attempts, and returns `False`; and no run of `_connect` ever makes
more than `MAX_RECONNECT_ATTEMPTS` attempts. -/
theorem connect_backoff_bounded (oracle : Nat → AttemptOutcome)
    (h : ∀ n, n < MAX_RECONNECT_ATTEMPTS → oracle n = .connError) :
    redis_connect oracle = ⟨false, 5, [5, 10, 20, 30, 30]⟩ ∧
    ∀ oracle2 : Nat → AttemptOutcome,
      (redis_connect oracle2).attempts_made ≤ MAX_RECONNECT_ATTEMPTS := by
  constructor
  · have hr : List.range MAX_RECONNECT_ATTEMPTS = [0, 1, 2, 3, 4] := by
      decide
    rw [redis_connect, hr]
    simp [connect_loop, h 0 (by decide), h 1 (by decide), h 2 (by decide),
      h 3 (by decide), h 4 (by decide), backoff_delay, RECONNECT_DELAY]
  · intro oracle2
    have := connect_loop_attempts_le oracle2
      (List.range MAX_RECONNECT_ATTEMPTS) 0 []
    simpa [redis_connect] using this

/-- Witness for C6: the all-connection-error oracle. -/
theorem connect_backoff_bounded_witness :
    redis_connect (fun _ => .connError) = ⟨false, 5, [5, 10, 20, 30, 30]⟩ :=
  (connect_backoff_bounded (fun _ => .connError) (fun _ _ => rfl)).1

/-! ### Dispatcher isolation -/

theorem run_handler_loop_eq_map (hs : List UHandler) (e : UEvent) :
    run_handler_loop hs e = hs.map (fun h => h e) := by
  induction hs with
  | nil => rfl
  | cons h rest ih => simp [run_handler_loop, ih]

/-- C7: if the i-th registered handler raises on a well-formed event, the
exception is caught inside `_process_message` — processing returns
normally with one recorded outcome per registered handler — and every
handler after index i is still invoked on the event (the trace at every
index j is exactly handler j applied to the event). -/
theorem handler_exception_isolated (handlers : String → List UHandler)
    (e : UEvent) (et : String) (i : Nat) (s : String)
    (hty : e.etype = some et) (hne : et ≠ "")
    (hi : i < (handlers et).length)
    (_hraises : ((handlers et).get ⟨i, hi⟩) e = .raisesH s) :
    process_message handlers (some ⟨some ("message"), some (.decoded e)⟩) =
      (handlers et).map (fun h => h e) ∧
    ∀ j (hj : j < (handlers et).length), i < j →
      (process_message handlers
        (some ⟨some ("message"), some (.decoded e)⟩)).get? j =
        some (((handlers et).get ⟨j, hj⟩) e) := by
  have hmain : process_message handlers
      (some ⟨some ("message"), some (.decoded e)⟩) =
      (handlers et).map (fun h => h e) := by
    simp [process_message, hty, hne, run_handler_loop_eq_map]
  refine ⟨hmain, ?_⟩
  intro j hj _
  rw [hmain, List.get?_map, List.get?_eq_get hj]
  rfl

/-- Witness for C7: two handlers for `"user_created"`, the first raising;
the trace still records both invocations. -/
theorem handler_exception_isolated_witness :
    process_message
      (fun s => if s = "user_created"
        then [fun _ => .raisesH ("boom"), (fun _ => .ok : UHandler)]
        else [])
      (some ⟨some ("message"),
        some (.decoded ⟨some ("user_created"), "e1"⟩)⟩) =
      [.raisesH ("boom"), .ok] := by
  have h := (handler_exception_isolated
    (fun s => if s = "user_created"
      then [fun _ => .raisesH ("boom"), (fun _ => .ok : UHandler)]
      else [])
    ⟨some ("user_created"), "e1"⟩ "user_created" 0 "boom"
    rfl (by decide) (by decide) rfl).1
  rw [h]
  rfl

/-! ### Envelope wire shape -/

/-- C9 counterexample: a concrete envelope published by the users service's
core publisher carries no `version` key, so not every envelope published
by the core carries all five required wire-shape fields. -/
theorem users_envelope_missing_version_counterexample :
    "version" ∉ (users_build_envelope ("id1") ("2024-09-28T10:00:00")
      ("user_created") []).map Prod.fst := by
  decide

/-- C9 (amended): envelopes built by the gateway's `EventService` carry
`event_id`, `type`, `timestamp`, `version` and `payload`; envelopes built
by the users service's `RedisService.publish_event` carry `event_id`,
`type`, `timestamp` and `payload`, with the `version` field absent. -/
theorem envelope_wire_fields (eid ts etype : String)
    (p : List (String × String)) :
    ((gw_create_event eid ts etype p).model_dump).map Prod.fst =
      ["event_id", "type", "timestamp", "version", "payload"] ∧
    (users_build_envelope eid ts etype p).map Prod.fst =
      ["event_id", "type", "timestamp", "payload"] ∧
    "version" ∉ (users_build_envelope eid ts etype p).map Prod.fst := by
  refine ⟨rfl, rfl, by simp [users_build_envelope]⟩

end Agenda
